import Mathlib

/-!
Shallow embedding of the OPTIGA Trust X/M host driver core
(`crypto_optiga.c`, the PHY register access layer and the Trust X command
encoders).  Pure control flow is translated into Lean functions; the
lower layers (nettran/data-link/bus) and the element itself are modelled
as explicit environment records holding the results the code observes;
fallible calls are `Except`/`Int` results following the C convention
that `0` is success and non-zero (negative errno) is failure.
Side effects the claims talk about (raising a completion signal,
attempting a bus transfer, the init/send/recv sequence, retry sleeps)
are recorded as explicit event traces.
-/

deriving instance DecidableEq for Except

namespace Optiga

/-- errno value EIO; the C code returns the negated value. -/
def eio : Int := 5

/-- errno value ENOMEM; the C code returns the negated value. -/
def enomem : Int := 12

/-- OPTIGA_MAX_RESET from crypto_optiga.c -/
def OPTIGA_MAX_RESET : Nat := 3

/-- OPTIGA_STATUS_CODE_SUCCESS: the outcome raised on a fully successful APDU. -/
def OPTIGA_STATUS_CODE_SUCCESS : Int := 0

/-- OPTIGA_APDU_STA_OFFSET: byte 0 of a response APDU is the status field. -/
def OPTIGA_APDU_STA_OFFSET : Nat := 0

/-- OPTIGA_APDU_STA_SUCCESS -/
def OPTIGA_APDU_STA_SUCCESS : Nat := 0

/-- Reading byte i of a response buffer (the buffers the C code indexes
into are zero-initialised, so bytes beyond the received length read 0). -/
def byteAt (rx : List Nat) (i : Nat) : Nat := rx.getD i 0

/-- Whether every byte of a buffer is zero (the memcmp against an
all-zero expected response in optiga_open_application). -/
def all_zero (rx : List Nat) : Bool := rx.all (fun b => b == 0)

/-- optiga_apdu_is_error from crypto_optiga.c: true iff byte 0 of the
response APDU differs from the success status. -/
def optiga_apdu_is_error (apdu_start : List Nat) : Bool :=
  byteAt apdu_start OPTIGA_APDU_STA_OFFSET != OPTIGA_APDU_STA_SUCCESS

/-- Observable actions of one worker-loop iteration: raising the
completion signal of a descriptor (with its outcome code), attempting
the APDU round-trip for a descriptor, and invoking the stack reset. -/
inductive WEvent where
  | signal (id : Nat) (code : Int)
  | attempt (id : Nat)
  | reset
deriving DecidableEq

/-- Environment one worker iteration runs in: the result of
optiga_transfer_apdu for the in-flight descriptor (ok carries the bytes
written to rx_buf), the result of optiga_reset on the recovery path
(only logged by the code), the result of optiga_get_error_code (ok
carries the retrieved error byte), and the descriptors found pending in
the queue by the K_NO_WAIT drain. -/
structure WorkerEnv where
  transfer : Except Int (List Nat)
  resetRes : Int
  errCode : Except Int Nat
  pending : List Nat
deriving DecidableEq

/-- Result of one worker-loop iteration: the reset counter afterwards
and the trace of observable events, in program order. -/
structure IterOut where
  counter : Nat
  events : List WEvent
deriving DecidableEq

/-- One iteration of the optiga_worker loop from crypto_optiga.c, after
dequeuing descriptor id with reset counter reset_counter. -/
def optiga_worker_iter (reset_counter : Nat) (id : Nat) (env : WorkerEnv) : IterOut :=
  if reset_counter > OPTIGA_MAX_RESET then
    ⟨reset_counter, [.signal id (-eio)]⟩
  else
    match env.transfer with
    | .error _ =>
      ⟨reset_counter + 1,
        .attempt id :: .reset :: (id :: env.pending).map (fun d => .signal d (-eio))⟩
    | .ok rx =>
      if optiga_apdu_is_error rx then
        match env.errCode with
        | .error e => ⟨0, [.attempt id, .signal id e]⟩
        | .ok ec => ⟨0, [.attempt id, .signal id (ec : Int)]⟩
      else
        ⟨0, [.attempt id, .signal id OPTIGA_STATUS_CODE_SUCCESS]⟩

/-- The worker loop run over a whole list of (descriptor, environment)
iterations, threading the reset counter and concatenating event traces. -/
def optiga_worker_run (c : Nat) : List (Nat × WorkerEnv) → Nat × List WEvent
  | [] => (c, [])
  | (id, env) :: rest =>
    let r := optiga_worker_iter c id env
    let q := optiga_worker_run r.counter rest
    (q.1, r.events ++ q.2)

/-- Descriptors an iteration takes out of the queue: the one dequeued
with K_FOREVER, plus (on the transport-failure path only) those drained
with K_NO_WAIT. -/
def consumed_ids (reset_counter : Nat) (id : Nat) (env : WorkerEnv) : List Nat :=
  if reset_counter > OPTIGA_MAX_RESET then [id]
  else
    match env.transfer with
    | .error _ => id :: env.pending
    | .ok _ => [id]

/-- Descriptor ids whose completion signal is raised in a trace, in order. -/
def signalled_ids : List WEvent → List Nat
  | [] => []
  | .signal d _ :: rest => d :: signalled_ids rest
  | _ :: rest => signalled_ids rest

/-- All (descriptor, outcome) pairs signalled in a trace, in order. -/
def signal_records : List WEvent → List (Nat × Int)
  | [] => []
  | .signal d k :: rest => (d, k) :: signal_records rest
  | _ :: rest => signal_records rest

/-- Outcome codes signalled for one particular descriptor, in order. -/
def signals_for (d : Nat) : List WEvent → List Int
  | [] => []
  | .signal e k :: rest => if e = d then k :: signals_for d rest else signals_for d rest
  | _ :: rest => signals_for d rest

/-- Observable actions of optiga_reset / optiga_open_application /
optiga_get_error_code: the three layer inits, sending an APDU, and
receiving a response. -/
inductive REvent where
  | phy_init
  | data_init
  | nettran_init
  | send (apdu : List Nat)
  | recv
deriving DecidableEq

/-- OPTIGA_OPEN_APPLICATION_RESPONSE_LEN -/
def OPTIGA_OPEN_APPLICATION_RESPONSE_LEN : Nat := 4

/-- The fixed OpenApplication APDU from crypto_optiga.c. -/
def optiga_open_application_apdu : List Nat :=
  [0xF0, 0x00, 0x00, 0x10,
   0xD2, 0x76, 0x00, 0x00, 0x04, 0x47, 0x65, 0x6E, 0x41, 0x75, 0x74, 0x68, 0x41, 0x70, 0x70, 0x6C]

/-- OPTIGA_GET_ERROR_RESPONSE_LEN -/
def OPTIGA_GET_ERROR_RESPONSE_LEN : Nat := 5

/-- The fixed GetDataObject APDU for the error-code object, from
crypto_optiga.c (error_code_apdu). -/
def error_code_apdu : List Nat :=
  [0x01, 0x00, 0x00, 0x06, 0xF1, 0xC2, 0x00, 0x00, 0x00, 0x01]

/-- Environment for optiga_reset: results of optiga_phy_init,
optiga_data_init, optiga_nettran_init, optiga_nettran_send_apdu and
optiga_nettran_recv_apdu (ok carries the received response bytes). -/
structure ResetEnv where
  phy_init : Int
  data_init : Int
  nettran_init : Int
  send_res : Int
  recv_res : Except Int (List Nat)
deriving DecidableEq

/-- optiga_open_application from crypto_optiga.c: send the fixed APDU,
receive the response into a 4-byte buffer, and require the response to
be exactly 4 bytes, all zero. -/
def optiga_open_application (env : ResetEnv) : Int × List REvent :=
  if env.send_res ≠ 0 then (env.send_res, [.send optiga_open_application_apdu])
  else
    match env.recv_res with
    | .error e => (e, [.send optiga_open_application_apdu, .recv])
    | .ok rx =>
      if rx.length = OPTIGA_OPEN_APPLICATION_RESPONSE_LEN ∧ all_zero rx = true then
        (0, [.send optiga_open_application_apdu, .recv])
      else
        (-eio, [.send optiga_open_application_apdu, .recv])

/-- optiga_reset from crypto_optiga.c: PHY init, then data-link init,
then nettran init, then OpenApplication; each failing step aborts with
its error code. -/
def optiga_reset (env : ResetEnv) : Int × List REvent :=
  if env.phy_init ≠ 0 then (env.phy_init, [.phy_init])
  else if env.data_init ≠ 0 then (env.data_init, [.phy_init, .data_init])
  else if env.nettran_init ≠ 0 then (env.nettran_init, [.phy_init, .data_init, .nettran_init])
  else
    let oa := optiga_open_application env
    (oa.1, .phy_init :: .data_init :: .nettran_init :: oa.2)

/-- Environment for optiga_get_error_code: results of the nettran send
and receive of the error-code exchange. -/
structure ErrEnv where
  send_res : Int
  recv_res : Except Int (List Nat)
deriving DecidableEq

/-- Result of optiga_get_error_code: the return value, the byte written
through the err_code output pointer (none if never written), and the
event trace. -/
structure ErrOut where
  ret : Int
  err_code : Option Nat
  events : List REvent
deriving DecidableEq

/-- optiga_get_error_code from crypto_optiga.c: send error_code_apdu,
receive into a 5-byte buffer, check length 5, byte 0 = 0x00 and bytes
2..3 = 0x00 0x01, then output byte 4. -/
def optiga_get_error_code (env : ErrEnv) : ErrOut :=
  if env.send_res ≠ 0 then ⟨env.send_res, none, [.send error_code_apdu]⟩
  else
    match env.recv_res with
    | .error e => ⟨e, none, [.send error_code_apdu, .recv]⟩
    | .ok rx =>
      if rx.length ≠ OPTIGA_GET_ERROR_RESPONSE_LEN then
        ⟨-eio, none, [.send error_code_apdu, .recv]⟩
      else if byteAt rx 0 ≠ 0 then
        ⟨-eio, none, [.send error_code_apdu, .recv]⟩
      else if byteAt rx 2 ≠ 0x00 ∨ byteAt rx 3 ≠ 0x01 then
        ⟨-eio, none, [.send error_code_apdu, .recv]⟩
      else
        ⟨0, some (byteAt rx 4), [.send error_code_apdu, .recv]⟩

/-- N_PHY: number of attempts per register-transaction phase. -/
def N_PHY : Nat := 5

/-- Observable actions of the PHY retry loops: one bus attempt (with
the loop index and the bus result it observed) and one sleep of the
given number of milliseconds. -/
inductive PhyEvent where
  | attempt (i : Nat) (res : Int)
  | sleep (ms : Nat)
deriving DecidableEq

/-- One retry loop of optiga_reg_read (the for i in 0..4 loop): attempt
the bus operation; on result 0 stop with acked = true, otherwise sleep
10 ms and try again while attempts remain.  res gives the bus result of
the i-th attempt. -/
def phy_retry (res : Nat → Int) : Nat → Nat → Bool × List PhyEvent
  | _, 0 => (false, [])
  | i, fuel + 1 =>
    if res i = 0 then (true, [.attempt i (res i)])
    else
      let r := phy_retry res (i + 1) fuel
      (r.1, .attempt i (res i) :: .sleep 10 :: r.2)

/-- Result of optiga_reg_read: return value and the event traces of the
register-select (write) phase and the data-read phase. -/
structure RegReadOut where
  ret : Int
  write_events : List PhyEvent
  read_events : List PhyEvent
deriving DecidableEq

/-- optiga_reg_read from the PHY layer: select the register address
(retried), then read the data (retried); -EIO if either phase never
ACKs, 0 once both phases succeed.  wres and rres give the bus results
of the individual i2c_write / i2c_read attempts. -/
def optiga_reg_read (wres rres : Nat → Int) : RegReadOut :=
  let w := phy_retry wres 0 N_PHY
  if w.1 then
    let r := phy_retry rres 0 N_PHY
    if r.1 then ⟨0, w.2, r.2⟩
    else ⟨-eio, w.2, r.2⟩
  else ⟨-eio, w.2, []⟩

/-- Number of bus attempts recorded in a PHY trace. -/
def attempt_count : List PhyEvent → Nat
  | [] => 0
  | .attempt _ _ :: rest => attempt_count rest + 1
  | _ :: rest => attempt_count rest

/-- Number of sleeps recorded in a PHY trace. -/
def sleep_count : List PhyEvent → Nat
  | [] => 0
  | .sleep _ :: rest => sleep_count rest + 1
  | _ :: rest => sleep_count rest

/-- Number of failed bus attempts (non-zero result) in a PHY trace. -/
def failed_attempt_count : List PhyEvent → Nat
  | [] => 0
  | .attempt _ r :: rest => (if r = 0 then 0 else 1) + failed_attempt_count rest
  | _ :: rest => failed_attempt_count rest

/-- sys_put_be16: big-endian encoding of the low 16 bits of a value. -/
def sys_put_be16 (v : Nat) : List Nat := [v % 65536 / 256, v % 256]

/-- sys_get_be16 from two bytes. -/
def sys_get_be16 (b0 b1 : Nat) : Nat := b0 * 256 + b1

/-- OPTIGA_TRUSTX_CMD_GET_DATA_OBJECT -/
def OPTIGA_TRUSTX_CMD_GET_DATA_OBJECT : Nat := 0x81

/-- OPTIGA_TRUSTX_OUT_DATA_OFFSET: a response APDU has a 4-byte header. -/
def OPTIGA_TRUSTX_OUT_DATA_OFFSET : Nat := 4

/-- The tx APDU built by optrust_data_get: GetDataObject header followed
by OID, offset and requested length (each big-endian 16-bit). -/
def data_get_tx (oid offs len : Nat) : List Nat :=
  [OPTIGA_TRUSTX_CMD_GET_DATA_OBJECT, 0x00] ++ sys_put_be16 0x06
    ++ sys_put_be16 oid ++ sys_put_be16 offs ++ sys_put_be16 len

/-- Observable dispatcher interaction of a command encoder: enqueuing a
descriptor with the given tx bytes. -/
inductive CmdEvent where
  | enqueue (tx : List Nat)
deriving DecidableEq

/-- Environment of one submitted descriptor: the outcome code delivered
by the completion signal and the bytes the worker wrote into rx_buf
(apdu.rx_len is their count). -/
structure SubmitEnv where
  result_code : Int
  rx : List Nat
deriving DecidableEq

/-- Result of optrust_data_get: return value, the bytes copied into the
caller buffer (none if nothing was copied; on success the list length
is the value written back through len), and the dispatcher events. -/
structure DataGetOut where
  ret : Int
  buf : Option (List Nat)
  events : List CmdEvent
deriving DecidableEq

/-- optrust_data_get from the Trust X command encoders: build the
GetDataObject APDU, enqueue it, wait for the outcome, then parse the
response; len is the caller buffer capacity (the value behind the len
pointer at entry). -/
def optrust_data_get (oid offs len : Nat) (env : SubmitEnv) : DataGetOut :=
  let tx := data_get_tx oid offs len
  let evs := [CmdEvent.enqueue tx]
  if env.result_code ≠ OPTIGA_STATUS_CODE_SUCCESS then ⟨-eio, none, evs⟩
  else
    let out_len := sys_get_be16 (byteAt env.rx 2) (byteAt env.rx 3)
    if out_len ≠ env.rx.length - OPTIGA_TRUSTX_OUT_DATA_OFFSET then ⟨-eio, none, evs⟩
    else if out_len > len then ⟨-enomem, none, evs⟩
    else ⟨0, some ((env.rx.drop OPTIGA_TRUSTX_OUT_DATA_OFFSET).take out_len), evs⟩

/-- Modulus of size_t arithmetic (64-bit build). -/
def U64 : Nat := 2 ^ 64

/-- size_t subtraction with wraparound. -/
def usub64 (a b : Nat) : Nat := (a % U64 + (U64 - b % U64)) % U64

/-- SET_TLV_OVERHEAD: tag byte plus big-endian 16-bit length. -/
def SET_TLV_OVERHEAD : Nat := 3

/-- OPTIGA_TRUSTX_IN_DATA_OFFSET: a tx APDU has a 4-byte header. -/
def OPTIGA_TRUSTX_IN_DATA_OFFSET : Nat := 4

/-- Offset of tx_buf within apdu_buf in optrust_ecdsa_verify_oid at the
point where asn1_sig_len is computed: the 4-byte APDU header, the
digest TLV, the 0x02 parameter byte, and the 2-byte signature length
field. -/
def verify_oid_sig_offset (digest_len : Nat) : Nat :=
  OPTIGA_TRUSTX_IN_DATA_OFFSET + (SET_TLV_OVERHEAD + digest_len) + 1 + 2

/-- The value optrust_ecdsa_verify_oid computes for asn1_sig_len:
ctx->apdu_buf_len - (ctx->apdu_buf - tx_buf) in size_t arithmetic.
Since tx_buf = apdu_buf + offset, the pointer difference
apdu_buf - tx_buf equals 0 - offset modulo 2^64. -/
def verify_oid_asn1_sig_len (apdu_buf_len digest_len : Nat) : Nat :=
  usub64 apdu_buf_len (usub64 0 (verify_oid_sig_offset digest_len))

/-- The number of bytes actually left in apdu_buf at the current write
position tx_buf = apdu_buf + verify_oid_sig_offset digest_len. -/
def verify_oid_remaining (apdu_buf_len digest_len : Nat) : Nat :=
  apdu_buf_len - verify_oid_sig_offset digest_len

/-- Concrete worker environment whose transport round-trip fails. -/
def envTransportFail : WorkerEnv :=
  ⟨Except.error (-eio), 0, Except.error (-eio), [2, 3]⟩

/-- Concrete worker environment with healthy transport, used to show the
DEAD state ignores the transport entirely. -/
def envDead : WorkerEnv := ⟨Except.ok [0, 0, 0, 0], 0, Except.ok 0, []⟩

/-- Concrete worker environment: the element answers with status byte 7
and the GetErrorCode exchange retrieves error byte 0. -/
def envErrByteZero : WorkerEnv := ⟨Except.ok [7], 0, Except.ok 0, []⟩

/-- Concrete worker environment: the element answers with status byte 1
and the GetErrorCode exchange retrieves error byte 0x2A. -/
def envCmdError : WorkerEnv := ⟨Except.ok [1, 0, 0, 0], 0, Except.ok 0x2A, []⟩

/-- Concrete reset environment in which every step succeeds. -/
def envResetOk : ResetEnv := ⟨0, 0, 0, 0, Except.ok [0, 0, 0, 0]⟩

/-- Concrete error-code environment: the element reports error 0x2A. -/
def envErrCodeOk : ErrEnv := ⟨0, Except.ok [0x00, 0x00, 0x00, 0x01, 0x2A]⟩

/-- Concrete bus-attempt results: ACK on the third attempt. -/
def busAckThird (i : Nat) : Int := if i = 2 then 0 else -1

/-- Concrete bus-attempt results: never ACKs. -/
def busNack (_ : Nat) : Int := -1

/-- Concrete submit environment: the exchange succeeds and the response
carries a 2-byte body. -/
def envDataGetTwoBytes : SubmitEnv := ⟨0, [0x00, 0x00, 0x00, 0x02, 0xAA, 0xBB]⟩

end Optiga

namespace Optiga

/-- Helper: the signalled ids of a block of signal events are exactly the
ids the block was built from. -/
theorem signalled_ids_map_signal (l : List Nat) (k : Int) :
    signalled_ids (l.map (fun d => WEvent.signal d k)) = l := by
  induction l with
  | nil => rfl
  | cons a t ih => simpa [signalled_ids] using ih

/-- Helper: the signal records of a block of signal events with a common
outcome code. -/
theorem signal_records_map_signal (l : List Nat) (k : Int) :
    signal_records (l.map (fun d => WEvent.signal d k)) = l.map (fun d => (d, k)) := by
  induction l with
  | nil => rfl
  | cons a t ih => simpa [signal_records] using ih

/-- Helper: optiga_apdu_is_error holds exactly when byte 0 of the
response is non-zero. -/
theorem apdu_is_error_iff (rx : List Nat) :
    optiga_apdu_is_error rx = true ↔ byteAt rx 0 ≠ 0 := by
  simp [optiga_apdu_is_error, OPTIGA_APDU_STA_OFFSET, OPTIGA_APDU_STA_SUCCESS]

/-- Helper: optiga_apdu_is_error is false exactly when byte 0 of the
response is zero. -/
theorem apdu_is_error_false_iff (rx : List Nat) :
    optiga_apdu_is_error rx = false ↔ byteAt rx 0 = 0 := by
  simp [optiga_apdu_is_error, OPTIGA_APDU_STA_OFFSET, OPTIGA_APDU_STA_SUCCESS]

/-- Claim C1: each worker-loop iteration takes one descriptor (plus, on
the transport-failure path, the drained pending ones) and raises the
completion signal of each descriptor it consumes exactly once: the list
of signalled descriptors equals the list of consumed descriptors, so
each is signalled with the same multiplicity as it was consumed. -/
theorem worker_signal_exactly_once (c id : Nat) (env : WorkerEnv) :
    signalled_ids (optiga_worker_iter c id env).events = consumed_ids c id env ∧
    ∀ d, (signalled_ids (optiga_worker_iter c id env).events).count d
        = (consumed_ids c id env).count d := by
  have h : signalled_ids (optiga_worker_iter c id env).events = consumed_ids c id env := by
    by_cases hc : c > OPTIGA_MAX_RESET
    · simp [optiga_worker_iter, consumed_ids, hc, signalled_ids]
    · cases htr : env.transfer with
      | error e =>
        simp [optiga_worker_iter, consumed_ids, hc, htr, signalled_ids,
          signalled_ids_map_signal]
      | ok rx =>
        by_cases he : optiga_apdu_is_error rx
        · cases hec : env.errCode with
          | error e2 =>
            simp [optiga_worker_iter, consumed_ids, hc, htr, he, hec, signalled_ids]
          | ok ec =>
            simp [optiga_worker_iter, consumed_ids, hc, htr, he, hec, signalled_ids]
        · simp [optiga_worker_iter, consumed_ids, hc, htr, he, signalled_ids]
  exact ⟨h, fun d => by rw [h]⟩

/-- Claim C5: the reset counter after an iteration is: unchanged on the
fatal short-circuit, incremented by one on a transport failure, and zero
after any successful round-trip — independently of whether the element
reported a command-level error and of the GetErrorCode sub-exchange. -/
theorem worker_reset_counter_update (c id : Nat) (env : WorkerEnv) :
    (optiga_worker_iter c id env).counter
      = if c > OPTIGA_MAX_RESET then c
        else
          match env.transfer with
          | Except.error _ => c + 1
          | Except.ok _ => 0 := by
  by_cases hc : c > OPTIGA_MAX_RESET
  · simp [optiga_worker_iter, hc]
  · cases htr : env.transfer with
    | error e => simp [optiga_worker_iter, hc, htr]
    | ok rx =>
      by_cases he : optiga_apdu_is_error rx
      · cases hec : env.errCode with
        | error e2 => simp [optiga_worker_iter, hc, htr, he, hec]
        | ok ec => simp [optiga_worker_iter, hc, htr, he, hec]
      · simp [optiga_worker_iter, hc, htr, he]

/-- Claim C3: once the reset counter exceeds OPTIGA_MAX_RESET the core
is absorbed in the DEAD state: over any sequence of further iterations,
whatever the transport would answer, the counter never changes and the
whole event trace consists of one -EIO completion signal per dequeued
descriptor — in particular no transfer is ever attempted again. -/
theorem worker_dead_absorbing (c : Nat) (l : List (Nat × WorkerEnv))
    (hc : c > OPTIGA_MAX_RESET) :
    optiga_worker_run c l = (c, l.map (fun p => WEvent.signal p.1 (-eio))) := by
  induction l with
  | nil => simp [optiga_worker_run]
  | cons p rest ih =>
    obtain ⟨id, env⟩ := p
    have hiter : optiga_worker_iter c id env = ⟨c, [WEvent.signal id (-eio)]⟩ := by
      simp [optiga_worker_iter, hc]
    simp [optiga_worker_run, hiter, ih]

/-- Claim C3 witness: with the counter at 4, two dequeued descriptors
are both completed with -EIO, the counter stays 4, and nothing else
happens, although the environment would have answered the transfer. -/
theorem worker_dead_absorbing_witness :
    optiga_worker_run 4 [(7, envDead), (8, envDead)]
      = (4, [WEvent.signal 7 (-eio), WEvent.signal 8 (-eio)]) := by
  have h := worker_dead_absorbing 4 [(7, envDead), (8, envDead)] (by decide)
  rw [h]
  decide

/-- Claim C2: if the transport round-trip for the in-flight descriptor
fails (below the fatal threshold), the worker increments the reset
counter, invokes the full stack reset, signals the in-flight descriptor
and every pending descriptor with -EIO, and attempts no transfer for any
descriptor other than the in-flight one. -/
theorem worker_transport_failure_drains (c id : Nat) (env : WorkerEnv) (e : Int)
    (hc : c ≤ OPTIGA_MAX_RESET) (ht : env.transfer = Except.error e) :
    (optiga_worker_iter c id env).counter = c + 1 ∧
    WEvent.reset ∈ (optiga_worker_iter c id env).events ∧
    signal_records (optiga_worker_iter c id env).events
      = (id :: env.pending).map (fun d => (d, -eio)) ∧
    ∀ d, WEvent.attempt d ∈ (optiga_worker_iter c id env).events → d = id := by
  have hc2 : ¬ c > OPTIGA_MAX_RESET := by omega
  refine ⟨?_, ?_, ?_, ?_⟩
  · simp [optiga_worker_iter, hc2, ht]
  · simp [optiga_worker_iter, hc2, ht]
  · simp [optiga_worker_iter, hc2, ht, signal_records, signal_records_map_signal]
  · intro d hd
    simp [optiga_worker_iter, hc2, ht] at hd
    exact hd

/-- Claim C2 witness: with counter 0 and pending descriptors 2 and 3, a
failed transfer for descriptor 1 yields counter 1 and -EIO signals for
1, 2 and 3. -/
theorem worker_transport_failure_drains_witness :
    (optiga_worker_iter 0 1 envTransportFail).counter = 1 ∧
    signal_records (optiga_worker_iter 0 1 envTransportFail).events
      = [(1, -eio), (2, -eio), (3, -eio)] := by
  have h := worker_transport_failure_drains 0 1 envTransportFail (-eio) (by decide) rfl
  refine ⟨h.1, ?_⟩
  rw [h.2.2.1]
  decide

/-- Claim C4 counterexample: the transport round-trip succeeds with
response byte 0 equal to 7 (non-zero), the GetErrorCode sub-exchange
succeeds and retrieves error byte 0, and the worker publishes outcome 0
— so the published outcome is 0 although byte 0 of the response APDU is
not 0, and the signalled value is not positive. -/
theorem worker_error_byte_zero_cex :
    signals_for 1 (optiga_worker_iter 0 1 envErrByteZero).events = [0] ∧
    envErrByteZero.transfer = Except.ok [7] ∧
    byteAt [7] 0 ≠ 0 := by decide

/-- Claim C4 as amended: for a descriptor whose transport round-trip
succeeds, the published outcome is 0 exactly when byte 0 of the response
APDU is 0 or the retrieved error byte is 0; when byte 0 is non-zero the
worker signals the retrieved error byte (positive whenever it is
non-zero), or the negative code of the GetErrorCode sub-exchange if that
sub-exchange itself fails. -/
theorem worker_response_status_outcome (c id : Nat) (env : WorkerEnv) (rx : List Nat)
    (hc : c ≤ OPTIGA_MAX_RESET) (ht : env.transfer = Except.ok rx)
    (hneg : ∀ e2, env.errCode = Except.error e2 → e2 < 0) :
    (signals_for id (optiga_worker_iter c id env).events = [0]
        ↔ (byteAt rx 0 = 0 ∨ env.errCode = Except.ok 0)) ∧
    (byteAt rx 0 = 0 → signals_for id (optiga_worker_iter c id env).events = [0]) ∧
    (byteAt rx 0 ≠ 0 →
      (∀ ec, env.errCode = Except.ok ec →
        signals_for id (optiga_worker_iter c id env).events = [(ec : Int)] ∧
        (ec ≠ 0 → 0 < (ec : Int))) ∧
      (∀ e2, env.errCode = Except.error e2 →
        signals_for id (optiga_worker_iter c id env).events = [e2] ∧ e2 < 0)) := by
  have hc2 : ¬ c > OPTIGA_MAX_RESET := by omega
  by_cases hb : byteAt rx 0 = 0
  · have he : optiga_apdu_is_error rx = false := (apdu_is_error_false_iff rx).mpr hb
    have hs : signals_for id (optiga_worker_iter c id env).events = [0] := by
      simp [optiga_worker_iter, hc2, ht, he, signals_for, OPTIGA_STATUS_CODE_SUCCESS]
    exact ⟨by rw [hs]; exact iff_of_true rfl (Or.inl hb), fun _ => hs,
      fun hb2 => absurd hb hb2⟩
  · have he : optiga_apdu_is_error rx = true := (apdu_is_error_iff rx).mpr hb
    cases hec : env.errCode with
    | error e2 =>
      have hs : signals_for id (optiga_worker_iter c id env).events = [e2] := by
        simp [optiga_worker_iter, hc2, ht, he, hec, signals_for]
      have hlt : e2 < 0 := hneg e2 hec
      refine ⟨?_, fun hb0 => absurd hb0 hb, fun _ => ⟨?_, ?_⟩⟩
      · rw [hs]
        apply iff_of_false
        · intro hEq
          have h0 : e2 = 0 := by injection hEq
          omega
        · rintro (h0 | hok)
          · exact hb h0
          · exact absurd hok (by simp)
      · intro ec hok
        exact absurd hok (by simp)
      · intro e3 herr
        obtain rfl : e2 = e3 := by simpa using herr
        exact ⟨hs, hlt⟩
    | ok ec =>
      have hs : signals_for id (optiga_worker_iter c id env).events = [(ec : Int)] := by
        simp [optiga_worker_iter, hc2, ht, he, hec, signals_for]
      refine ⟨?_, fun hb0 => absurd hb0 hb, fun _ => ⟨?_, ?_⟩⟩
      · rw [hs]
        constructor
        · intro hEq
          have hcast : (ec : Int) = 0 := by injection hEq
          have h0 : ec = 0 := by exact_mod_cast hcast
          exact Or.inr (by rw [h0])
        · rintro (h0 | hok)
          · exact absurd h0 hb
          · have h0 : ec = 0 := by simpa using hok
            rw [h0]
            rfl
      · intro ec2 hok
        obtain rfl : ec = ec2 := by simpa using hok
        refine ⟨hs, fun hne => ?_⟩
        exact_mod_cast Nat.pos_of_ne_zero hne
      · intro e3 herr
        exact absurd herr (by simp)

/-- Claim C4 witness: the element answers with status byte 1 and the
GetErrorCode exchange retrieves 0x2A, so the worker publishes outcome
0x2A for the in-flight descriptor. -/
theorem worker_response_status_outcome_witness :
    signals_for 1 (optiga_worker_iter 0 1 envCmdError).events = [(0x2A : Int)] ∧
    (0 : Int) < 0x2A := by
  have h := worker_response_status_outcome 0 1 envCmdError [1, 0, 0, 0] (by decide) rfl
    (by intro e2 he; simp [envCmdError] at he)
  have h2 := (h.2.2 (by decide)).1 0x2A rfl
  exact ⟨h2.1, h2.2 (by decide)⟩

/-- Claim C6: optiga_reset performs, in order, PHY init, data-link init,
nettran init, then sends the fixed 20-byte OpenApplication APDU, and
returns success exactly when the received response is exactly 4 bytes,
all zero; any other response yields -EIO, and a failure of any earlier
step aborts the sequence with that step's error code.  The hypothesis
states the C error convention: a failing nettran receive reports a
non-zero code. -/
theorem optiga_reset_spec (env : ResetEnv)
    (hrecv : ∀ e, env.recv_res = Except.error e → e ≠ 0) :
    (optiga_open_application_apdu.length = 20 ∧
      optiga_open_application_apdu
        = [0xF0, 0x00, 0x00, 0x10, 0xD2, 0x76, 0x00, 0x00, 0x04,
           0x47, 0x65, 0x6E, 0x41, 0x75, 0x74, 0x68, 0x41, 0x70, 0x70, 0x6C]) ∧
    ((optiga_reset env).1 = 0 ↔
      env.phy_init = 0 ∧ env.data_init = 0 ∧ env.nettran_init = 0 ∧ env.send_res = 0 ∧
      ∃ rx, env.recv_res = Except.ok rx ∧
        rx.length = 4 ∧ all_zero rx = true) ∧
    ((optiga_reset env).1 = 0 →
      (optiga_reset env).2
        = [REvent.phy_init, REvent.data_init, REvent.nettran_init,
           REvent.send optiga_open_application_apdu, REvent.recv]) ∧
    (∀ rx, env.phy_init = 0 → env.data_init = 0 → env.nettran_init = 0 → env.send_res = 0 →
      env.recv_res = Except.ok rx →
      ¬(rx.length = 4 ∧ all_zero rx = true) →
      (optiga_reset env).1 = -eio) ∧
    (env.phy_init ≠ 0 → optiga_reset env = (env.phy_init, [REvent.phy_init])) ∧
    (env.phy_init = 0 → env.data_init ≠ 0 →
      optiga_reset env = (env.data_init, [REvent.phy_init, REvent.data_init])) ∧
    (env.phy_init = 0 → env.data_init = 0 → env.nettran_init ≠ 0 →
      optiga_reset env
        = (env.nettran_init, [REvent.phy_init, REvent.data_init, REvent.nettran_init])) ∧
    (env.phy_init = 0 → env.data_init = 0 → env.nettran_init = 0 → env.send_res ≠ 0 →
      optiga_reset env
        = (env.send_res, [REvent.phy_init, REvent.data_init, REvent.nettran_init,
            REvent.send optiga_open_application_apdu])) ∧
    (∀ e, env.phy_init = 0 → env.data_init = 0 → env.nettran_init = 0 → env.send_res = 0 →
      env.recv_res = Except.error e →
      optiga_reset env
        = (e, [REvent.phy_init, REvent.data_init, REvent.nettran_init,
            REvent.send optiga_open_application_apdu, REvent.recv])) := by
  have hiff : (optiga_reset env).1 = 0 ↔
      env.phy_init = 0 ∧ env.data_init = 0 ∧ env.nettran_init = 0 ∧ env.send_res = 0 ∧
      ∃ rx, env.recv_res = Except.ok rx ∧
        rx.length = 4 ∧ all_zero rx = true := by
    by_cases h1 : env.phy_init = 0
    · by_cases h2 : env.data_init = 0
      · by_cases h3 : env.nettran_init = 0
        · by_cases h4 : env.send_res = 0
          · cases hr : env.recv_res with
            | error e =>
              apply iff_of_false
              · have hv : (optiga_reset env).1 = e := by
                  simp [optiga_reset, optiga_open_application, h1, h2, h3, h4, hr]
                rw [hv]
                exact hrecv e hr
              · rintro ⟨-, -, -, -, rx, hrx, -⟩
                exact absurd hrx (by simp)
            | ok rx =>
              by_cases hch : rx.length = 4 ∧ all_zero rx = true
              · apply iff_of_true
                · simp [optiga_reset, optiga_open_application, h1, h2, h3, h4, hr,
                    OPTIGA_OPEN_APPLICATION_RESPONSE_LEN, hch]
                · exact ⟨h1, h2, h3, h4, rx, rfl, hch⟩
              · apply iff_of_false
                · have hv : (optiga_reset env).1 = -eio := by
                    simp [optiga_reset, optiga_open_application, h1, h2, h3, h4, hr,
                      OPTIGA_OPEN_APPLICATION_RESPONSE_LEN, hch]
                  rw [hv]
                  decide
                · rintro ⟨-, -, -, -, rx2, hrx2, hch2⟩
                  obtain rfl : rx = rx2 := by simpa using hrx2
                  exact hch hch2
          · apply iff_of_false
            · have hv : (optiga_reset env).1 = env.send_res := by
                simp [optiga_reset, optiga_open_application, h1, h2, h3, h4]
              rw [hv]
              exact h4
            · rintro ⟨-, -, -, h4b, -⟩
              exact h4 h4b
        · apply iff_of_false
          · have hv : (optiga_reset env).1 = env.nettran_init := by
              simp [optiga_reset, h1, h2, h3]
            rw [hv]
            exact h3
          · rintro ⟨-, -, h3b, -⟩
            exact h3 h3b
      · apply iff_of_false
        · have hv : (optiga_reset env).1 = env.data_init := by
            simp [optiga_reset, h1, h2]
          rw [hv]
          exact h2
        · rintro ⟨-, h2b, -⟩
          exact h2 h2b
    · apply iff_of_false
      · have hv : (optiga_reset env).1 = env.phy_init := by
          simp [optiga_reset, h1]
        rw [hv]
        exact h1
      · rintro ⟨h1b, -⟩
        exact h1 h1b
  refine ⟨⟨by decide, by decide⟩, hiff, ?_, ?_, ?_, ?_, ?_, ?_, ?_⟩
  · intro h0
    obtain ⟨h1, h2, h3, h4, rx, hr, hch⟩ := hiff.mp h0
    simp [optiga_reset, optiga_open_application, h1, h2, h3, h4, hr,
      OPTIGA_OPEN_APPLICATION_RESPONSE_LEN, hch]
  · intro rx h1 h2 h3 h4 hr hch
    simp [optiga_reset, optiga_open_application, h1, h2, h3, h4, hr,
      OPTIGA_OPEN_APPLICATION_RESPONSE_LEN, hch]
  · intro h1
    simp [optiga_reset, h1]
  · intro h1 h2
    simp [optiga_reset, h1, h2]
  · intro h1 h2 h3
    simp [optiga_reset, h1, h2, h3]
  · intro h1 h2 h3 h4
    simp [optiga_reset, optiga_open_application, h1, h2, h3, h4]
  · intro e h1 h2 h3 h4 hr
    simp [optiga_reset, optiga_open_application, h1, h2, h3, h4, hr]

/-- Claim C6 witness: in the environment where every step succeeds and
the element answers the OpenApplication APDU with four zero bytes,
optiga_reset returns 0 and the trace is PHY init, data-link init,
nettran init, send OpenApplication, receive. -/
theorem optiga_reset_spec_witness :
    (optiga_reset envResetOk).1 = 0 ∧
    (optiga_reset envResetOk).2
      = [REvent.phy_init, REvent.data_init, REvent.nettran_init,
         REvent.send optiga_open_application_apdu, REvent.recv] := by
  have h := optiga_reset_spec envResetOk (by intro e he; simp [envResetOk] at he)
  have h0 : (optiga_reset envResetOk).1 = 0 :=
    h.2.1.mpr ⟨rfl, rfl, rfl, rfl, [0, 0, 0, 0], rfl, by decide, by decide⟩
  exact ⟨h0, h.2.2.1 h0⟩

/-- Claim C7: optiga_get_error_code sends the fixed 10-byte GetDataObject
APDU for the error-code object 0xF1C2 and returns 0 with the error byte
taken from response byte 4 exactly when the response is 5 bytes with
byte 0 = 0x00 and bytes 2..3 = 0x00 0x01; any other response yields
-EIO, and a lower-layer send or receive failure is propagated without
the output byte being written.  The hypothesis states the C error
convention: a failing nettran receive reports a non-zero code. -/
theorem optiga_get_error_code_spec (env : ErrEnv)
    (hrecv : ∀ e, env.recv_res = Except.error e → e ≠ 0) :
    (error_code_apdu.length = 10 ∧
      error_code_apdu = [0x01, 0x00, 0x00, 0x06, 0xF1, 0xC2, 0x00, 0x00, 0x00, 0x01]) ∧
    ((optiga_get_error_code env).events.head? = some (REvent.send error_code_apdu)) ∧
    ((optiga_get_error_code env).ret = 0 ↔
      env.send_res = 0 ∧ ∃ rx, env.recv_res = Except.ok rx ∧ rx.length = 5 ∧
        byteAt rx 0 = 0 ∧ byteAt rx 2 = 0 ∧ byteAt rx 3 = 1) ∧
    (∀ rx, env.send_res = 0 → env.recv_res = Except.ok rx → rx.length = 5 →
      byteAt rx 0 = 0 → byteAt rx 2 = 0 → byteAt rx 3 = 1 →
      (optiga_get_error_code env).ret = 0 ∧
      (optiga_get_error_code env).err_code = some (byteAt rx 4)) ∧
    ((optiga_get_error_code env).ret ≠ 0 → (optiga_get_error_code env).err_code = none) ∧
    (env.send_res ≠ 0 →
      optiga_get_error_code env = ⟨env.send_res, none, [REvent.send error_code_apdu]⟩) ∧
    (∀ e, env.send_res = 0 → env.recv_res = Except.error e →
      optiga_get_error_code env
        = ⟨e, none, [REvent.send error_code_apdu, REvent.recv]⟩) ∧
    (∀ rx, env.send_res = 0 → env.recv_res = Except.ok rx →
      ¬(rx.length = 5 ∧ byteAt rx 0 = 0 ∧ byteAt rx 2 = 0 ∧ byteAt rx 3 = 1) →
      (optiga_get_error_code env).ret = -eio) := by
  have hbad : ∀ rx, env.send_res = 0 → env.recv_res = Except.ok rx →
      ¬(rx.length = 5 ∧ byteAt rx 0 = 0 ∧ byteAt rx 2 = 0 ∧ byteAt rx 3 = 1) →
      (optiga_get_error_code env).ret = -eio := by
    intro rx h1 hr hch
    by_cases c1 : rx.length = 5
    · by_cases c2 : byteAt rx 0 = 0
      · by_cases c3 : byteAt rx 2 = 0
        · by_cases c4 : byteAt rx 3 = 1
          · exact absurd ⟨c1, c2, c3, c4⟩ hch
          · simp [optiga_get_error_code, h1, hr, OPTIGA_GET_ERROR_RESPONSE_LEN,
              c1, c2, c3, c4]
        · simp [optiga_get_error_code, h1, hr, OPTIGA_GET_ERROR_RESPONSE_LEN, c1, c2, c3]
      · simp [optiga_get_error_code, h1, hr, OPTIGA_GET_ERROR_RESPONSE_LEN, c1, c2]
    · simp [optiga_get_error_code, h1, hr, OPTIGA_GET_ERROR_RESPONSE_LEN, c1]
  refine ⟨⟨by decide, by decide⟩, ?_, ?_, ?_, ?_, ?_, ?_, hbad⟩
  · simp only [optiga_get_error_code]
    split
    · rfl
    · split
      · rfl
      · split
        · rfl
        · split
          · rfl
          · split
            · rfl
            · rfl
  · by_cases h1 : env.send_res = 0
    · cases hr : env.recv_res with
      | error e =>
        apply iff_of_false
        · have hv : (optiga_get_error_code env).ret = e := by
            simp [optiga_get_error_code, h1, hr]
          rw [hv]
          exact hrecv e hr
        · rintro ⟨-, rx, hrx, -⟩
          exact absurd hrx (by simp)
      | ok rx =>
        by_cases hch : rx.length = 5 ∧ byteAt rx 0 = 0 ∧ byteAt rx 2 = 0 ∧ byteAt rx 3 = 1
        · obtain ⟨c1, c2, c3, c4⟩ := hch
          apply iff_of_true
          · simp [optiga_get_error_code, h1, hr, OPTIGA_GET_ERROR_RESPONSE_LEN,
              c1, c2, c3, c4]
          · exact ⟨h1, rx, rfl, c1, c2, c3, c4⟩
        · apply iff_of_false
          · rw [hbad rx h1 hr hch]
            decide
          · rintro ⟨-, rx2, hrx2, hc1, hc2, hc3, hc4⟩
            obtain rfl : rx = rx2 := by simpa using hrx2
            exact hch ⟨hc1, hc2, hc3, hc4⟩
    · apply iff_of_false
      · have hv : (optiga_get_error_code env).ret = env.send_res := by
          simp [optiga_get_error_code, h1]
        rw [hv]
        exact h1
      · rintro ⟨h1b, -⟩
        exact h1 h1b
  · intro rx h1 hr c1 c2 c3 c4
    simp [optiga_get_error_code, h1, hr, OPTIGA_GET_ERROR_RESPONSE_LEN, c1, c2, c3, c4]
  · intro hne
    by_cases h1 : env.send_res = 0
    · cases hr : env.recv_res with
      | error e => simp [optiga_get_error_code, h1, hr]
      | ok rx =>
        by_cases c1 : rx.length = 5
        · by_cases c2 : byteAt rx 0 = 0
          · by_cases c3 : byteAt rx 2 = 0
            · by_cases c4 : byteAt rx 3 = 1
              · exact absurd (by simp [optiga_get_error_code, h1, hr,
                  OPTIGA_GET_ERROR_RESPONSE_LEN, c1, c2, c3, c4]) hne
              · simp [optiga_get_error_code, h1, hr, OPTIGA_GET_ERROR_RESPONSE_LEN,
                  c1, c2, c3, c4]
            · simp [optiga_get_error_code, h1, hr, OPTIGA_GET_ERROR_RESPONSE_LEN,
                c1, c2, c3]
          · simp [optiga_get_error_code, h1, hr, OPTIGA_GET_ERROR_RESPONSE_LEN, c1, c2]
        · simp [optiga_get_error_code, h1, hr, OPTIGA_GET_ERROR_RESPONSE_LEN, c1]
    · simp [optiga_get_error_code, h1]
  · intro h1
    simp [optiga_get_error_code, h1]
  · intro e h1 hr
    simp [optiga_get_error_code, h1, hr]

/-- Claim C7 witness: for the well-formed response 00 00 00 01 2A the
function returns 0 and outputs error byte 0x2A. -/
theorem optiga_get_error_code_spec_witness :
    (optiga_get_error_code envErrCodeOk).ret = 0 ∧
    (optiga_get_error_code envErrCodeOk).err_code = some 0x2A := by
  have h := optiga_get_error_code_spec envErrCodeOk
    (by intro e he; simp [envErrCodeOk] at he)
  have h4 := h.2.2.2.1 [0x00, 0x00, 0x00, 0x01, 0x2A] rfl rfl (by decide) (by decide)
    (by decide) (by decide)
  exact ⟨h4.1, h4.2⟩

/-- Helper: a PHY retry loop ACKs exactly when some attempt within its
budget returns 0. -/
theorem phy_retry_acked_iff (res : Nat → Int) (fuel : Nat) :
    ∀ i, (phy_retry res i fuel).1 = true ↔ ∃ k, k < fuel ∧ res (i + k) = 0 := by
  induction fuel with
  | zero => intro i; simp [phy_retry]
  | succ n ih =>
    intro i
    by_cases h : res i = 0
    · constructor
      · intro _
        exact ⟨0, Nat.succ_pos n, by simpa using h⟩
      · intro _
        simp [phy_retry, h]
    · have hstep : (phy_retry res i (n + 1)).1 = (phy_retry res (i + 1) n).1 := by
        simp [phy_retry, h]
      rw [hstep, ih (i + 1)]
      constructor
      · rintro ⟨k, hk, hres⟩
        refine ⟨k + 1, by omega, ?_⟩
        have harith : i + (k + 1) = i + 1 + k := by omega
        rw [harith]
        exact hres
      · rintro ⟨k, hk, hres⟩
        cases k with
        | zero => exact absurd (by simpa using hres) h
        | succ m =>
          refine ⟨m, by omega, ?_⟩
          have harith : i + 1 + m = i + (m + 1) := by omega
          rw [harith]
          exact hres

/-- Helper: a PHY retry loop makes at most fuel attempts. -/
theorem phy_retry_attempt_count (res : Nat → Int) (fuel : Nat) :
    ∀ i, attempt_count (phy_retry res i fuel).2 ≤ fuel := by
  induction fuel with
  | zero => intro i; simp [phy_retry, attempt_count]
  | succ n ih =>
    intro i
    by_cases h : res i = 0
    · simp [phy_retry, h, attempt_count]
    · have hrec := ih (i + 1)
      simp [phy_retry, h, attempt_count]
      omega

/-- Helper: a PHY retry loop sleeps exactly once per failed attempt. -/
theorem phy_retry_sleep_eq_failed (res : Nat → Int) (fuel : Nat) :
    ∀ i, sleep_count (phy_retry res i fuel).2
        = failed_attempt_count (phy_retry res i fuel).2 := by
  induction fuel with
  | zero => intro i; simp [phy_retry, sleep_count, failed_attempt_count]
  | succ n ih =>
    intro i
    by_cases h : res i = 0
    · simp [phy_retry, h, sleep_count, failed_attempt_count]
    · have hrec := ih (i + 1)
      simp [phy_retry, h, sleep_count, failed_attempt_count]
      omega

/-- Helper: every sleep in a PHY retry loop is 10 ms. -/
theorem phy_retry_sleep_ten (res : Nat → Int) (fuel : Nat) :
    ∀ i ms, PhyEvent.sleep ms ∈ (phy_retry res i fuel).2 → ms = 10 := by
  induction fuel with
  | zero => intro i ms hm; simp [phy_retry] at hm
  | succ n ih =>
    intro i ms hm
    by_cases h : res i = 0
    · simp [phy_retry, h] at hm
    · simp [phy_retry, h] at hm
      rcases hm with hm | hm
      · exact hm
      · exact ih (i + 1) ms hm

/-- Claim C8: optiga_reg_read is two-phase — first write the register
address, then read the data — with each phase attempted up to N_PHY (=5)
times and a 10 ms sleep after each failed attempt; it returns -EIO if
either phase never ACKs within its 5 attempts, returns 0 as soon as both
phases succeed, and does not attempt the read phase at all when the
write phase never ACKs. -/
theorem optiga_reg_read_spec (wres rres : Nat → Int) :
    ((optiga_reg_read wres rres).ret = 0 ↔
      (∃ i, i < N_PHY ∧ wres i = 0) ∧ (∃ j, j < N_PHY ∧ rres j = 0)) ∧
    ((optiga_reg_read wres rres).ret = 0 ∨ (optiga_reg_read wres rres).ret = -eio) ∧
    attempt_count (optiga_reg_read wres rres).write_events ≤ N_PHY ∧
    attempt_count (optiga_reg_read wres rres).read_events ≤ N_PHY ∧
    sleep_count (optiga_reg_read wres rres).write_events
      = failed_attempt_count (optiga_reg_read wres rres).write_events ∧
    sleep_count (optiga_reg_read wres rres).read_events
      = failed_attempt_count (optiga_reg_read wres rres).read_events ∧
    (∀ ms, PhyEvent.sleep ms ∈ (optiga_reg_read wres rres).write_events → ms = 10) ∧
    (∀ ms, PhyEvent.sleep ms ∈ (optiga_reg_read wres rres).read_events → ms = 10) ∧
    ((¬ ∃ i, i < N_PHY ∧ wres i = 0) → (optiga_reg_read wres rres).read_events = []) := by
  have hw := phy_retry_acked_iff wres N_PHY 0
  have hrd := phy_retry_acked_iff rres N_PHY 0
  simp only [Nat.zero_add] at hw hrd
  by_cases hwa : (phy_retry wres 0 N_PHY).1 = true
  · by_cases hra : (phy_retry rres 0 N_PHY).1 = true
    · have ho : optiga_reg_read wres rres
          = ⟨0, (phy_retry wres 0 N_PHY).2, (phy_retry rres 0 N_PHY).2⟩ := by
        simp [optiga_reg_read, hwa, hra]
      rw [ho]
      exact ⟨iff_of_true rfl ⟨hw.mp hwa, hrd.mp hra⟩, Or.inl rfl,
        phy_retry_attempt_count wres N_PHY 0, phy_retry_attempt_count rres N_PHY 0,
        phy_retry_sleep_eq_failed wres N_PHY 0, phy_retry_sleep_eq_failed rres N_PHY 0,
        phy_retry_sleep_ten wres N_PHY 0, phy_retry_sleep_ten rres N_PHY 0,
        fun hn => absurd (hw.mp hwa) hn⟩
    · have ho : optiga_reg_read wres rres
          = ⟨-eio, (phy_retry wres 0 N_PHY).2, (phy_retry rres 0 N_PHY).2⟩ := by
        simp [optiga_reg_read, hwa, hra]
      rw [ho]
      refine ⟨iff_of_false (by simp [eio]) ?_, Or.inr rfl,
        phy_retry_attempt_count wres N_PHY 0, phy_retry_attempt_count rres N_PHY 0,
        phy_retry_sleep_eq_failed wres N_PHY 0, phy_retry_sleep_eq_failed rres N_PHY 0,
        phy_retry_sleep_ten wres N_PHY 0, phy_retry_sleep_ten rres N_PHY 0,
        fun hn => absurd (hw.mp hwa) hn⟩
      rintro ⟨-, hack⟩
      exact hra (hrd.mpr hack)
  · have ho : optiga_reg_read wres rres = ⟨-eio, (phy_retry wres 0 N_PHY).2, []⟩ := by
      simp [optiga_reg_read, hwa]
    rw [ho]
    refine ⟨iff_of_false (by simp [eio]) ?_, Or.inr rfl,
      phy_retry_attempt_count wres N_PHY 0, by simp [attempt_count],
      phy_retry_sleep_eq_failed wres N_PHY 0, by simp [sleep_count, failed_attempt_count],
      phy_retry_sleep_ten wres N_PHY 0, by intro ms hm; simp at hm,
      fun _ => rfl⟩
    rintro ⟨hack, -⟩
    exact hwa (hw.mpr hack)

/-- Claim C8 witness: with an ACK on the third write attempt and on the
third read attempt, optiga_reg_read returns 0; with a bus that never
ACKs the register address, it returns -EIO and the read phase is never
attempted. -/
theorem optiga_reg_read_spec_witness :
    (optiga_reg_read busAckThird busAckThird).ret = 0 ∧
    (optiga_reg_read busNack busAckThird).ret = -eio ∧
    (optiga_reg_read busNack busAckThird).read_events = [] := by
  have h1 := (optiga_reg_read_spec busAckThird busAckThird).1
  have h2 := optiga_reg_read_spec busNack busAckThird
  have hnone : ¬ ∃ i, i < N_PHY ∧ busNack i = 0 := by
    rintro ⟨i, -, hb⟩
    simp [busNack] at hb
  refine ⟨h1.mpr ⟨⟨2, by decide, by decide⟩, ⟨2, by decide, by decide⟩⟩, ?_, ?_⟩
  · rcases h2.2.1 with h | h
    · exact absurd (h2.1.mp h).1 hnone
    · exact h
  · exact h2.2.2.2.2.2.2.2.2 hnone

/-- Claim C9 counterexample: a GetDataObject request whose caller buffer
holds 1 byte is enqueued to the dispatcher and exchanged; the
too-small-buffer rejection (-ENOMEM) only happens after the exchange,
when the well-formed 2-byte response body does not fit — so the request
did enter the dispatcher queue instead of being rejected at the encoder. -/
theorem data_get_small_buffer_enqueued_cex :
    (optrust_data_get 0xE0C2 0 1 envDataGetTwoBytes).ret = -enomem ∧
    (optrust_data_get 0xE0C2 0 1 envDataGetTwoBytes).buf = none ∧
    (optrust_data_get 0xE0C2 0 1 envDataGetTwoBytes).events
      = [CmdEvent.enqueue (data_get_tx 0xE0C2 0 1)] := by decide

/-- Claim C9 as amended: optrust_data_get performs no caller-buffer size
check before submission — the descriptor is always enqueued (its tx APDU
requests at most len bytes) — and when the exchange succeeds but the
well-formed response body exceeds the caller buffer capacity, the
function returns -ENOMEM only after the exchange, copying nothing. -/
theorem data_get_overflow_after_exchange (oid offs len : Nat) (env : SubmitEnv)
    (h0 : env.result_code = 0)
    (hwf : sys_get_be16 (byteAt env.rx 2) (byteAt env.rx 3) = env.rx.length - 4)
    (hov : env.rx.length - 4 > len) :
    (optrust_data_get oid offs len env).events
      = [CmdEvent.enqueue (data_get_tx oid offs len)] ∧
    (optrust_data_get oid offs len env).ret = -enomem ∧
    (optrust_data_get oid offs len env).buf = none := by
  have hv : optrust_data_get oid offs len env
      = ⟨-enomem, none, [CmdEvent.enqueue (data_get_tx oid offs len)]⟩ := by
    simp [optrust_data_get, h0, OPTIGA_STATUS_CODE_SUCCESS,
      OPTIGA_TRUSTX_OUT_DATA_OFFSET, hwf, hov]
  rw [hv]
  exact ⟨rfl, rfl, rfl⟩

/-- Claim C9 amended-claim witness: the concrete overflowing exchange of
the counterexample, reached through the general theorem. -/
theorem data_get_overflow_after_exchange_witness :
    (optrust_data_get 0xE0C2 0 1 envDataGetTwoBytes).events
      = [CmdEvent.enqueue (data_get_tx 0xE0C2 0 1)] ∧
    (optrust_data_get 0xE0C2 0 1 envDataGetTwoBytes).ret = -enomem := by
  have h := data_get_overflow_after_exchange 0xE0C2 0 1 envDataGetTwoBytes rfl
    (by decide) (by decide)
  exact ⟨h.1, h.2.1⟩

/-- Claim C10 (refuted — code bug): in optrust_ecdsa_verify_oid the
remaining-capacity value computed for the ASN.1 signature encoding is
apdu_buf_len - (apdu_buf - tx_buf) with the pointer difference reversed,
which in size_t arithmetic equals apdu_buf_len + offset instead of
apdu_buf_len - offset.  At apdu_buf_len = 100 and digest_len = 32
(offset 42) the encoder is authorised to write 142 bytes although only
58 remain — more even than the whole buffer. -/
theorem verify_oid_sig_capacity_bug :
    verify_oid_asn1_sig_len 100 32 = 142 ∧
    verify_oid_remaining 100 32 = 58 ∧
    verify_oid_remaining 100 32 < verify_oid_asn1_sig_len 100 32 ∧
    100 < verify_oid_asn1_sig_len 100 32 ∧
    verify_oid_asn1_sig_len 100 32 = 100 + verify_oid_sig_offset 32 := by
  decide

end Optiga
